import Mathlib

/-!
Shallow embedding of `src/live_stream_handler.py` (class `VideoStreamCapture`):
the bounded frame buffer (`collections.deque` with `maxlen`), the retrying
frame fetcher `_query_frame`, the producer loop `_query_frames`, the stop
signal `signal_stop_querying`, the consumer-side `get_frame_from_deque`, and
the recording consumer `record_live_stream_to_folder`.

Frames are opaque payloads: every definition is parametric in the frame
type `α`.  Sleep durations (`time.sleep`) are modelled symbolically as
rational numbers carried in event traces; wall-clock behaviour itself is out
of scope.  The concurrent reads of the shared `keep_querying` flag and the
shared deque are modelled by environment functions (`kqRead`, `supply`)
giving the value observed at each loop iteration.
-/

namespace LiveStream

/-- Model of Python's `collections.deque(maxlen=n)` as used for
`self.frames`: the list `items` holds the entries left-to-right, so
`items.head` is the left/oldest end and `items.getLast` the right/newest
end (`deque.append` inserts on the right). -/
structure Deque (α : Type) where
  maxlen : Nat
  items : List α
deriving Repr, DecidableEq

/-- `deque(maxlen=n)` starts empty (line 46 of the source). -/
def Deque.emptyD (α : Type) (maxlen : Nat) : Deque α := ⟨maxlen, []⟩

/-- Python `deque.append(x)` with a `maxlen`: appends on the right; when the
deque is full the leftmost (oldest) entry is discarded first.  A
`maxlen=0` deque ignores appends, as in CPython. -/
def Deque.appendD (d : Deque α) (x : α) : Deque α :=
  if d.maxlen = 0 then d
  else if d.items.length = d.maxlen then ⟨d.maxlen, d.items.tail ++ [x]⟩
  else ⟨d.maxlen, d.items ++ [x]⟩

/-- Appending a whole list of frames in order, as the producer loop does
one frame at a time. -/
def Deque.appendAll (d : Deque α) : List α → Deque α
  | [] => d
  | x :: xs => (d.appendD x).appendAll xs

/-- `VideoStreamCapture.get_frame_from_deque` (lines 104-121): when the
deque is non-empty, `pop_right=True` removes and returns the right/newest
entry via `deque.pop()`, otherwise the left/oldest via `deque.popleft()`;
on an empty deque it returns `None` immediately.  Returns the popped
value (`none` = Python `None`) together with the deque afterwards. -/
def get_frame_from_deque (d : Deque α) (pop_right : Bool) : Option α × Deque α :=
  if d.items.isEmpty then (none, d)
  else if pop_right then (d.items.getLast?, ⟨d.maxlen, d.items.dropLast⟩)
  else (d.items.head?, ⟨d.maxlen, d.items.tail⟩)

/-- Observable events of one `_query_frame` call: a read attempt on the
video capture (`self.video_capture.read()`, line 65) or a
`time.sleep(d)` of duration `d` (line 71). -/
inductive FetchEvent where
  | read
  | sleep (d : ℚ)
deriving Repr, DecidableEq

/-- `true` exactly on read attempts. -/
def FetchEvent.isRead : FetchEvent → Bool
  | .read => true
  | .sleep _ => false

/-- Outcome of `_query_frame`: a frame, or the `IOError` raised on line 77
after the attempt budget is exhausted. -/
inductive FetchResult (α : Type) where
  | frame (f : α)
  | ioError
deriving Repr, DecidableEq

/-- The `while num_failed_attempts < self.max_sequential_fail_attempts`
loop of `_query_frame` (lines 64-74).  `src i` is the frame (or `None`)
that the `i`-th `video_capture.read()` of this call yields; `remaining`
is the attempt budget still available (`max_sequential_fail_attempts -
num_failed_attempts`), which strictly decreases on each failed attempt.
Each failed attempt sleeps `mst` (= `self.micro_sleep_time`) before the
next one.  Returns the result and the trace of events, in order. -/
def queryFrameAux (src : Nat → Option α) (mst : ℚ) :
    Nat → Nat → FetchResult α × List FetchEvent
  | _, 0 => (.ioError, [])
  | i, remaining + 1 =>
    match src i with
    | some f => (.frame f, [.read])
    | none =>
      let rest := queryFrameAux src mst (i + 1) remaining
      (rest.1, .read :: .sleep mst :: rest.2)

/-- `VideoStreamCapture._query_frame` (lines 56-77): the failure counter
`num_failed_attempts` is a local variable initialised to 0 on every call,
so the call starts with the full budget `max_fail.toNat`
(`while 0 < max_fail` runs iff `max_fail > 0`). -/
def query_frame (src : Nat → Option α) (max_fail : Int) (mst : ℚ) :
    FetchResult α × List FetchEvent :=
  queryFrameAux src mst 0 max_fail.toNat

/-- State of a `VideoStreamCapture` instance (lines 43-54).
`video_capture` (the cv2 handle) is kept abstract; `target_folder_path`
is `none` when the attribute was never assigned (the constructor assigns
it only inside the `if not target_folder_path` branch, lines 52-54). -/
structure VideoStreamCapture (α : Type) where
  stream_url : String
  max_sequential_fail_attempts : Int
  frames : Deque α
  micro_sleep_time : ℚ
  keep_querying : Bool
  verbose : Bool
  target_folder_path : Option String
deriving Repr, DecidableEq

/-- `VideoStreamCapture.__init__` (lines 29-54).  `tfp_arg` is the
`target_folder_path` argument (`none` models Python `None`); `generated`
stands for the `os.path.join(os.getcwd(), f'capture_{now}')` string built
on line 53.  Python's `not s` on a string is true exactly for `''`, so
the attribute is assigned only when the argument is `None` or `''`. -/
def VideoStreamCapture.init (α : Type) (stream_url : String) (tfp_arg : Option String)
    (generated : String) (buffer_size : Nat) (verbose : Bool) (mst : ℚ)
    (max_fail : Int) : VideoStreamCapture α :=
  { stream_url := stream_url
    max_sequential_fail_attempts := max_fail
    frames := Deque.emptyD α buffer_size
    micro_sleep_time := mst
    keep_querying := true
    verbose := verbose
    target_folder_path :=
      match tfp_arg with
      | none => some generated
      | some s => if s = "" then some generated else none }

/-- `VideoStreamCapture.signal_stop_querying` (lines 100-102). -/
def signal_stop_querying (s : VideoStreamCapture α) : VideoStreamCapture α :=
  { s with keep_querying := false }

/-- How the producer loop `_query_frames` ended: falling off the `while`
normally (stop flag observed false), the `sys.exit(1)` on line 92, or the
modelling fuel running out (the real loop may run unboundedly). -/
inductive PExit where
  | normal
  | sysExit (code : Nat)
  | fuelOut
deriving Repr, DecidableEq

/-- Result of a `_query_frames` run: how it exited, the deque contents,
the value of `keep_querying` at the moment the loop ended (the loop
itself never writes that flag), and how many times
`self.video_capture.release()` (line 98) ran. -/
structure PResult (α : Type) where
  exitKind : PExit
  frames : Deque α
  keep_querying : Bool
  releases : Nat
deriving Repr, DecidableEq

/-- `VideoStreamCapture._query_frames` (lines 79-98).  `kqRead i` is the
value of the shared `self.keep_querying` flag observed at the `i`-th
`while` check (it is written only by other threads, via
`signal_stop_querying`); `src i` gives the stream responses seen by the
`i`-th `_query_frame` call.  On `IOError` the handler logs and calls
`sys.exit(1)`, so the `release()` after the loop is never reached and the
flag is left as last read.  `fuel` bounds the modelled iterations. -/
def queryFramesAux (kqRead : Nat → Bool) (src : Nat → Nat → Option α)
    (max_fail : Int) (mst : ℚ) : Nat → Nat → Deque α → PResult α
  | 0, i, d => ⟨.fuelOut, d, kqRead i, 0⟩
  | fuel + 1, i, d =>
    if kqRead i then
      match query_frame (src i) max_fail mst with
      | (.frame f, _) => queryFramesAux kqRead src max_fail mst fuel (i + 1) (d.appendD f)
      | (.ioError, _) => ⟨.sysExit 1, d, kqRead i, 0⟩
    else ⟨.normal, d, false, 1⟩

/-- Entry point of the producer loop, starting at iteration 0 with the
instance's current deque. -/
def query_frames (kqRead : Nat → Bool) (src : Nat → Nat → Option α)
    (max_fail : Int) (mst : ℚ) (d : Deque α) (fuel : Nat) : PResult α :=
  queryFramesAux kqRead src max_fail mst fuel 0 d

/-- Observable events of the recording loop: a `cv2.imwrite` persistence
call (line 181) or a `time.sleep(d)` (lines 179 and 182). -/
inductive RecEvent where
  | write
  | sleep (d : ℚ)
deriving Repr, DecidableEq

/-- `true` exactly on persistence calls. -/
def RecEvent.isWrite : RecEvent → Bool
  | .write => true
  | .sleep _ => false

/-- How `record_live_stream_to_folder` ended: the `while` condition going
false, the `AttributeError` from reading the never-assigned
`self.target_folder_path` (line 153), the `break` on a quit key press
(line 186), or the modelling fuel running out. -/
inductive RecExit where
  | normal
  | attrError
  | quitBreak
  | fuelOut
deriving Repr, DecidableEq

/-- The `while num_images_saved < max_num_images or max_num_images == -1`
loop (lines 173-191).  `supply i` is what `get_frame_from_deque()` returns
at the `i`-th iteration (the deque is filled concurrently by the producer
thread); `quit i` is whether the `cv2.waitKey` check on line 185 sees `q`.
Per iteration: a `None` frame sleeps `mst`; a real frame is written
(`cv2.imwrite`), then the loop sleeps `interval` and increments the
counter; only then is the quit key checked.  Returns how the loop ended,
the final `num_images_saved`, and the event trace in order. -/
def recordLoop (supply : Nat → Option α) (quit : Nat → Bool)
    (interval mst : ℚ) (m : Int) :
    Nat → Nat → Nat → RecExit × Nat × List RecEvent
  | 0, _, num =>
    if (num : Int) < m ∨ m = -1 then (.fuelOut, num, []) else (.normal, num, [])
  | fuel + 1, i, num =>
    if (num : Int) < m ∨ m = -1 then
      match supply i with
      | none =>
        if quit i then (.quitBreak, num, [RecEvent.sleep mst])
        else
          let r := recordLoop supply quit interval mst m fuel (i + 1) num
          (r.1, r.2.1, RecEvent.sleep mst :: r.2.2)
      | some _ =>
        if quit i then (.quitBreak, num + 1, [RecEvent.write, RecEvent.sleep interval])
        else
          let r := recordLoop supply quit interval mst m fuel (i + 1) (num + 1)
          (r.1, r.2.1, RecEvent.write :: RecEvent.sleep interval :: r.2.2)
    else (.normal, num, [])

/-- Result of one `record_live_stream_to_folder` call: how it ended, the
final `num_images_saved`, the event trace, and whether
`signal_stop_querying` (line 193) ran before returning. -/
structure RecResult where
  exitKind : RecExit
  num_images_saved : Nat
  events : List RecEvent
  stop_signaled : Bool
deriving Repr, DecidableEq

/-- `VideoStreamCapture.record_live_stream_to_folder` (lines 149-195).
Reading `self.target_folder_path` on line 153 raises `AttributeError`
when the attribute was never assigned, before any image is written and
before the stop signal; otherwise the loop runs and, on leaving it
(normally or via `break`), `signal_stop_querying()` sets the flag false.
Returns the call's result together with the instance state afterwards. -/
def record_live_stream_to_folder (s : VideoStreamCapture α) (interval : ℚ)
    (max_num_images : Int) (supply : Nat → Option α) (quit : Nat → Bool)
    (fuel : Nat) : RecResult × VideoStreamCapture α :=
  match s.target_folder_path with
  | none => (⟨.attrError, 0, [], false⟩, s)
  | some _ =>
    match recordLoop supply quit interval s.micro_sleep_time max_num_images fuel 0 0 with
    | (.fuelOut, n, evs) => (⟨.fuelOut, n, evs, false⟩, s)
    | (e, n, evs) => (⟨e, n, evs, true⟩, signal_stop_querying s)

/-- The operations that act on an existing `VideoStreamCapture` instance
and may touch its state: an external stop request, a consumer pop, one
producer push (the `self.frames.append(frame)` on line 94), the final
`signal_stop_querying()` of `show_live_stream_video` (line 147), and a
full `record_live_stream_to_folder` call. -/
inductive Op (α : Type) where
  | signalStop
  | getFrame (pop_right : Bool)
  | producerPush (f : α)
  | showLiveFinish
  | record (interval : ℚ) (m : Int) (supply : Nat → Option α) (quit : Nat → Bool) (fuel : Nat)

/-- Effect of each operation on the instance state. -/
def applyOp (s : VideoStreamCapture α) : Op α → VideoStreamCapture α
  | .signalStop => signal_stop_querying s
  | .getFrame b => { s with frames := (get_frame_from_deque s.frames b).2 }
  | .producerPush f => { s with frames := s.frames.appendD f }
  | .showLiveFinish => signal_stop_querying s
  | .record interval m supply quit fuel =>
    (record_live_stream_to_folder s interval m supply quit fuel).2

/-- Running a sequence of operations in order. -/
def applyOps (s : VideoStreamCapture α) : List (Op α) → VideoStreamCapture α
  | [] => s
  | op :: ops => applyOps (applyOp s op) ops

/-- `_query_frame` as the method call it is in the source: the failure
counter `num_failed_attempts` and `frame` are local variables (lines
61-62), so the call only reads `max_sequential_fail_attempts` and
`micro_sleep_time` from `self` and writes nothing back; it returns the
fetch outcome, its event trace, and the (unchanged) instance state. -/
def query_frame_method (s : VideoStreamCapture α) (src : Nat → Option α) :
    (FetchResult α × List FetchEvent) × VideoStreamCapture α :=
  (query_frame src s.max_sequential_fail_attempts s.micro_sleep_time, s)

/-- The strictly alternating list `[a, b, a, b, ...]` with `r` copies of
each: the shape of the event traces produced by the retry loop (read,
sleep, read, sleep, ...) and by the always-ready recording loop (write,
sleep, write, sleep, ...). -/
def altTrace (a b : ε) : Nat → List ε
  | 0 => []
  | r + 1 => a :: b :: altTrace a b r

/-- A concrete instance state for evaluating the theorems on explicit
inputs: buffer capacity 4, `micro_sleep_time` 1, the default failure
budget 20, and an assigned `target_folder_path`. -/
def sampleS : VideoStreamCapture Nat :=
  ⟨"u", 20, Deque.emptyD Nat 4, 1, true, true, some "p"⟩

/-! ## Helper lemmas -/

theorem altTrace_countP (p : ε → Bool) (a b : ε) (hpa : p a = true)
    (hpb : p b = false) : ∀ r, (altTrace a b r).countP p = r := by
  intro r
  induction r with
  | zero => rfl
  | succ r ih => rw [altTrace]; simp [List.countP_cons, hpa, hpb, ih]

theorem altTrace_chain_pair (R : ε → ε → Prop) (a b : ε) (hab : R a b)
    (hba : R b a) :
    ∀ r, (altTrace a b r).Chain' R ∧ (b :: altTrace a b r).Chain' R := by
  intro r
  induction r with
  | zero => exact ⟨List.chain'_nil, List.chain'_singleton b⟩
  | succ r ih =>
    rw [altTrace]
    exact ⟨List.chain'_cons.mpr ⟨hab, ih.2⟩,
      List.chain'_cons.mpr ⟨hba, List.chain'_cons.mpr ⟨hab, ih.2⟩⟩⟩

theorem altTrace_mem (a b : ε) : ∀ r, ∀ e ∈ altTrace a b r, e = a ∨ e = b := by
  intro r
  induction r with
  | zero => intro e he; simp [altTrace] at he
  | succ r ih =>
    intro e he
    rw [altTrace] at he
    simp only [List.mem_cons] at he
    rcases he with h | h | h
    · exact Or.inl h
    · exact Or.inr h
    · exact ih e h

/-- Contents of the deque after appending a list of frames: the
concatenation, with everything except the final `maxlen` entries dropped
from the front. -/
theorem appendAll_drop (C : Nat) (hC : 1 ≤ C) (fs : List α) :
    ∀ l : List α, l.length ≤ C →
      ((⟨C, l⟩ : Deque α).appendAll fs).items =
        (l ++ fs).drop (l.length + fs.length - C) := by
  induction fs with
  | nil =>
    intro l hl
    simp only [Deque.appendAll, List.append_nil, List.length_nil, Nat.add_zero,
      Nat.sub_eq_zero_of_le hl, List.drop_zero]
  | cons x xs ih =>
    intro l hl
    have hC0 : ¬ C = 0 := by omega
    show ((Deque.appendD ⟨C, l⟩ x).appendAll xs).items = _
    by_cases h : l.length = C
    · have hl0 : l ≠ [] := by
        intro e
        rw [e] at h
        simp at h
        omega
      obtain ⟨a, t, rfl⟩ := List.exists_cons_of_ne_nil hl0
      have hApp : Deque.appendD ⟨C, a :: t⟩ x = ⟨C, t ++ [x]⟩ := by
        simp [Deque.appendD, hC0, h]
      rw [hApp, ih (t ++ [x]) (by simp at h ⊢; omega)]
      have e1 : (t ++ [x]).length + xs.length - C = xs.length := by
        simp at h ⊢; omega
      have e2 : (a :: t).length + (x :: xs).length - C = xs.length + 1 := by
        simp at h ⊢; omega
      rw [e1, e2, List.cons_append, List.drop_succ_cons, List.append_assoc,
        List.singleton_append]
    · have hApp : Deque.appendD ⟨C, l⟩ x = ⟨C, l ++ [x]⟩ := by
        simp [Deque.appendD, hC0, h]
      rw [hApp, ih (l ++ [x]) (by simp; omega)]
      have e1 : (l ++ [x]).length + xs.length = l.length + (x :: xs).length := by
        simp; omega
      rw [e1, List.append_assoc, List.singleton_append]

/-- A `_query_frame` call whose every attempt finds no frame uses up its
whole budget, alternating reads and `mst` sleeps, and ends in `IOError`. -/
theorem queryFrameAux_none {α : Type} (mst : ℚ) :
    ∀ r i, queryFrameAux (fun _ => (none : Option α)) mst i r =
      (.ioError, altTrace FetchEvent.read (FetchEvent.sleep mst) r) := by
  intro r
  induction r with
  | zero => intro i; rfl
  | succ r ih => intro i; simp [queryFrameAux, altTrace, ih]

/-- A `record_live_stream_to_folder` call either returns the instance
unchanged (attribute error or fuel exhaustion) or with the stop flag
cleared via `signal_stop_querying`. -/
theorem record_state_cases (s : VideoStreamCapture α) (interval : ℚ) (m : Int)
    (supply : Nat → Option α) (quit : Nat → Bool) (fuel : Nat) :
    (record_live_stream_to_folder s interval m supply quit fuel).2 = s ∨
    (record_live_stream_to_folder s interval m supply quit fuel).2 =
      signal_stop_querying s := by
  unfold record_live_stream_to_folder
  cases s.target_folder_path with
  | none => exact Or.inl rfl
  | some p =>
    rcases recordLoop supply quit interval s.micro_sleep_time m fuel 0 0 with ⟨e, n, evs⟩
    cases e
    · exact Or.inr rfl
    · exact Or.inr rfl
    · exact Or.inr rfl
    · exact Or.inl rfl

/-- Each operation either leaves `keep_querying` as it was or sets it to
`false`; none sets it back to `true`. -/
theorem applyOp_keep_querying (s : VideoStreamCapture α) (op : Op α) :
    (applyOp s op).keep_querying = false ∨
    (applyOp s op).keep_querying = s.keep_querying := by
  cases op with
  | signalStop => exact Or.inl rfl
  | getFrame b => exact Or.inr rfl
  | producerPush f => exact Or.inr rfl
  | showLiveFinish => exact Or.inl rfl
  | record interval m supply quit fuel =>
    have hred : applyOp s (Op.record interval m supply quit fuel) =
        (record_live_stream_to_folder s interval m supply quit fuel).2 := rfl
    rcases record_state_cases s interval m supply quit fuel with h | h
    · rw [hred, h]; exact Or.inr rfl
    · rw [hred, h]; exact Or.inl rfl

/-- With an always-ready supply and no quit key, the recording loop runs
to its quota `m` and emits one write followed by one `interval`-sleep per
remaining image. -/
theorem recordLoop_always_ready {α : Type} (f : α) (interval mst : ℚ) (m : Nat) :
    ∀ fuel num i, num ≤ m → m - num ≤ fuel →
      recordLoop (fun _ => some f) (fun _ => false) interval mst (m : Int)
          fuel i num =
        (.normal, m, altTrace RecEvent.write (RecEvent.sleep interval) (m - num)) := by
  intro fuel
  induction fuel with
  | zero =>
    intro num i h1 h2
    have hnm : num = m := by omega
    subst hnm
    have hc : ¬ ((num : Int) < (num : Int) ∨ (num : Int) = -1) := by omega
    simp [recordLoop, hc, altTrace]
  | succ fuel ih =>
    intro num i h1 h2
    by_cases hnum : num < m
    · have hc : ((num : Int) < (m : Int) ∨ (m : Int) = -1) := by omega
      have ih2 := ih (num + 1) (i + 1) (by omega) (by omega)
      rw [show m - num = (m - (num + 1)) + 1 by omega, altTrace]
      simp [recordLoop, hc, hnum, ih2]
    · have hnm : num = m := by omega
      subst hnm
      have hc : ¬ ((num : Int) < (num : Int) ∨ (num : Int) = -1) := by omega
      simp [recordLoop, hc, altTrace]

/-- The producer loop runs `release()` exactly once when it leaves the
loop normally (stop flag observed false) and not at all otherwise. -/
theorem queryFramesAux_releases (kq : Nat → Bool) (src : Nat → Nat → Option α)
    (max_fail : Int) (mst : ℚ) :
    ∀ fuel i d,
      (queryFramesAux kq src max_fail mst fuel i d).releases =
        if (queryFramesAux kq src max_fail mst fuel i d).exitKind = PExit.normal
        then 1 else 0 := by
  intro fuel
  induction fuel with
  | zero => intro i d; simp [queryFramesAux]
  | succ fuel ih =>
    intro i d
    by_cases hkq : kq i
    · rcases hq : query_frame (src i) max_fail mst with ⟨res, tr⟩
      cases res with
      | frame f => simp [queryFramesAux, hkq, hq, ih]
      | ioError => simp [queryFramesAux, hkq, hq]
    · simp [queryFramesAux, hkq]

/-! ## Claim theorems -/

/-- C1: Pushing `C + k` frames (`C ≥ 1`, `k ≥ 0`) into an empty buffer of
capacity `C` leaves exactly the most recent `C` frames in arrival order,
with length `min C (total pushed)`; and a push on a full buffer evicts
the head (oldest) entry, never the newest. -/
theorem c1_bounded_buffer_keeps_most_recent (C k : Nat) (hC : 1 ≤ C)
    (fs : List Nat) (hfs : fs.length = C + k) (d : Deque Nat) (x : Nat)
    (hdm : d.maxlen = C) (hdl : d.items.length = C) :
    ((Deque.emptyD Nat C).appendAll fs).items = fs.drop k ∧
    ((Deque.emptyD Nat C).appendAll fs).items.length = min C fs.length ∧
    (d.appendD x).items = d.items.tail ++ [x] := by
  have h1 : ((Deque.emptyD Nat C).appendAll fs).items =
      (([] : List Nat) ++ fs).drop (([] : List Nat).length + fs.length - C) :=
    appendAll_drop C hC fs [] (by simp)
  simp only [List.nil_append, List.length_nil, Nat.zero_add] at h1
  have hk : fs.length - C = k := by omega
  rw [hk] at h1
  refine ⟨h1, ?_, ?_⟩
  · rw [h1, List.length_drop]
    omega
  · have hC0 : ¬ C = 0 := by omega
    simp [Deque.appendD, hdm, hdl, hC0]

/-- Witness for C1: capacity 3, five frames pushed, and one push on a
full three-element deque. -/
theorem c1_witness :
    1 ≤ 3 ∧ ([1, 2, 3, 4, 5] : List Nat).length = 3 + 2 ∧
    (⟨3, [7, 8, 9]⟩ : Deque Nat).maxlen = 3 ∧
    (⟨3, [7, 8, 9]⟩ : Deque Nat).items.length = 3 ∧
    (((Deque.emptyD Nat 3).appendAll [1, 2, 3, 4, 5]).items =
        [1, 2, 3, 4, 5].drop 2 ∧
      ((Deque.emptyD Nat 3).appendAll [1, 2, 3, 4, 5]).items.length =
        min 3 ([1, 2, 3, 4, 5] : List Nat).length ∧
      ((⟨3, [7, 8, 9]⟩ : Deque Nat).appendD 10).items =
        ([7, 8, 9] : List Nat).tail ++ [10]) :=
  ⟨by decide, by decide, by decide, by decide,
    c1_bounded_buffer_keeps_most_recent 3 2 (by decide) [1, 2, 3, 4, 5]
      (by decide) ⟨3, [7, 8, 9]⟩ 10 (by decide) (by decide)⟩

/-- C2: Against a source that reports absence on every attempt, one
`_query_frame` call ends in the terminal `IOError` after exactly
`max_sequential_fail_attempts` read attempts, every two consecutive
attempts separated by a sleep of `micro_sleep_time`. -/
theorem c2_fetch_fails_after_exact_budget (m : Nat) (mst : ℚ) :
    (query_frame (fun _ => (none : Option Nat)) (m : Int) mst).1 = .ioError ∧
    (query_frame (fun _ => (none : Option Nat)) (m : Int) mst).2.countP
      FetchEvent.isRead = m ∧
    (query_frame (fun _ => (none : Option Nat)) (m : Int) mst).2.Chain'
      (fun a b => ¬ (a = FetchEvent.read ∧ b = FetchEvent.read)) ∧
    ∀ e ∈ (query_frame (fun _ => (none : Option Nat)) (m : Int) mst).2,
      e = FetchEvent.read ∨ e = FetchEvent.sleep mst := by
  have h : query_frame (fun _ => (none : Option Nat)) (m : Int) mst =
      (.ioError, altTrace FetchEvent.read (FetchEvent.sleep mst) m) := by
    unfold query_frame
    rw [show ((m : Int)).toNat = m from by omega]
    exact queryFrameAux_none mst m 0
  rw [h]
  refine ⟨rfl, ?_, ?_, ?_⟩
  · exact altTrace_countP FetchEvent.isRead FetchEvent.read
      (FetchEvent.sleep mst) rfl rfl m
  · exact (altTrace_chain_pair _ _ _ (by simp) (by simp) m).1
  · exact altTrace_mem _ _ m

/-- C5: `get_frame_from_deque` with `pop_right = true` removes and
returns the tail (most recently appended) entry, with `pop_right = false`
the head (oldest); on an empty deque it returns `None` at once in both
modes (the model is a total function: there is no blocking). -/
theorem c5_pop_both_ends_and_empty (C : Nat) (l : List Nat) (x y : Nat)
    (hlen : l.length < C) :
    get_frame_from_deque (Deque.emptyD Nat C) true = (none, Deque.emptyD Nat C) ∧
    get_frame_from_deque (Deque.emptyD Nat C) false = (none, Deque.emptyD Nat C) ∧
    get_frame_from_deque ((⟨C, l⟩ : Deque Nat).appendD x) true = (some x, ⟨C, l⟩) ∧
    get_frame_from_deque (⟨C, l ++ [x]⟩ : Deque Nat) true = (some x, ⟨C, l⟩) ∧
    get_frame_from_deque (⟨C, y :: l⟩ : Deque Nat) false = (some y, ⟨C, l⟩) := by
  have hC0 : ¬ C = 0 := by omega
  have hne : ¬ l.length = C := by omega
  have happ : (⟨C, l⟩ : Deque Nat).appendD x = ⟨C, l ++ [x]⟩ := by
    simp [Deque.appendD, hC0, hne]
  have h3 : get_frame_from_deque (⟨C, l ++ [x]⟩ : Deque Nat) true =
      (some x, ⟨C, l⟩) := by
    simp [get_frame_from_deque]
  exact ⟨rfl, rfl, by rw [happ]; exact h3, h3, by simp [get_frame_from_deque]⟩

/-- Witness for C5: a two-element deque of capacity 3. -/
theorem c5_witness :
    ([10, 20] : List Nat).length < 3 ∧
    (get_frame_from_deque (Deque.emptyD Nat 3) true = (none, Deque.emptyD Nat 3) ∧
      get_frame_from_deque (Deque.emptyD Nat 3) false = (none, Deque.emptyD Nat 3) ∧
      get_frame_from_deque ((⟨3, [10, 20]⟩ : Deque Nat).appendD 30) true =
        (some 30, ⟨3, [10, 20]⟩) ∧
      get_frame_from_deque (⟨3, [10, 20] ++ [30]⟩ : Deque Nat) true =
        (some 30, ⟨3, [10, 20]⟩) ∧
      get_frame_from_deque (⟨3, 5 :: [10, 20]⟩ : Deque Nat) false =
        (some 5, ⟨3, [10, 20]⟩)) :=
  ⟨by decide, c5_pop_both_ends_and_empty 3 [10, 20] 30 5 (by decide)⟩

/-- C6: When the first read of a `_query_frame` call yields a frame, the
call returns it at once with a single read and no sleep in its trace; and
this holds regardless of any earlier call on the same instance, since the
failure counter is a local variable and the earlier call leaves the
instance state untouched. -/
theorem c6_first_attempt_success_is_immediate (s : VideoStreamCapture Nat)
    (src1 src2 : Nat → Option Nat) (f : Nat)
    (hmax : 1 ≤ s.max_sequential_fail_attempts) (hf : src2 0 = some f) :
    (query_frame_method (query_frame_method s src1).2 src2).1 =
      (.frame f, [FetchEvent.read]) ∧
    (query_frame_method s src1).2 = s := by
  refine ⟨?_, rfl⟩
  show query_frame src2 s.max_sequential_fail_attempts s.micro_sleep_time = _
  obtain ⟨r, hr⟩ : ∃ r, s.max_sequential_fail_attempts.toNat = r + 1 :=
    ⟨s.max_sequential_fail_attempts.toNat - 1, by omega⟩
  unfold query_frame
  rw [hr]
  simp [queryFrameAux, hf]

/-- Witness for C6: a failing prior call on `sampleS`, then a call whose
first read yields frame 7. -/
theorem c6_witness :
    1 ≤ sampleS.max_sequential_fail_attempts ∧
    (fun _ => (some 7 : Option Nat)) 0 = some 7 ∧
    ((query_frame_method (query_frame_method sampleS (fun _ => none)).2
        (fun _ => some 7)).1 = (.frame 7, [FetchEvent.read]) ∧
      (query_frame_method sampleS (fun _ => none)).2 = sampleS) :=
  ⟨by decide, rfl,
    c6_first_attempt_success_is_immediate sampleS (fun _ => none)
      (fun _ => some 7) 7 (by decide) rfl⟩

/-- C3 counterexample: with `max_sequential_fail_attempts = 3` and a
source that is always absent, the producer run ends in `sys.exit(1)` and
pushes nothing — but the claim's "running flag becomes false" fails:
`keep_querying` is still `true`, because the handler on lines 90-92 exits
without ever clearing it. -/
theorem c3_counterexample_flag_not_cleared :
    (query_frames (fun _ => true) (fun _ _ => (none : Option Nat)) 3 1
      (Deque.emptyD Nat 5) 4).exitKind = PExit.sysExit 1 ∧
    (query_frames (fun _ => true) (fun _ _ => (none : Option Nat)) 3 1
      (Deque.emptyD Nat 5) 4).frames.items = [] ∧
    ¬ (query_frames (fun _ => true) (fun _ _ => (none : Option Nat)) 3 1
      (Deque.emptyD Nat 5) 4).keep_querying = false := by
  decide

/-- C3 amended: when every fetch attempt fails, the producer loop stops
via `sys.exit(1)` and no frame from the failed call is ever pushed into
the buffer, but the pipeline-wide `keep_querying` flag is left `true`:
the failure path does not set it to false. -/
theorem c3_amended_producer_exits_without_push (max_fail : Int) (mst : ℚ)
    (d : Deque Nat) (fuel : Nat) (hfuel : 1 ≤ fuel) :
    query_frames (fun _ => true) (fun _ _ => (none : Option Nat)) max_fail mst d
      fuel = ⟨PExit.sysExit 1, d, true, 0⟩ := by
  obtain ⟨k, rfl⟩ : ∃ k, fuel = k + 1 := ⟨fuel - 1, by omega⟩
  have h : query_frame (fun _ => (none : Option Nat)) max_fail mst =
      (.ioError, altTrace FetchEvent.read (FetchEvent.sleep mst) max_fail.toNat) := by
    unfold query_frame
    exact queryFrameAux_none mst max_fail.toNat 0
  simp [query_frames, queryFramesAux, h]

/-- Witness for the amended C3: budget 3, buffer capacity 600, fuel 4. -/
theorem c3_amended_witness :
    1 ≤ 4 ∧
    query_frames (fun _ => true) (fun _ _ => (none : Option Nat)) 3 1
      (Deque.emptyD Nat 600) 4 = ⟨PExit.sysExit 1, Deque.emptyD Nat 600, true, 0⟩ :=
  ⟨by decide,
    c3_amended_producer_exits_without_push 3 1 (Deque.emptyD Nat 600) 4 (by decide)⟩

/-- C4 counterexample: a producer run that leaves its running state
because of the unrecoverable fetch failure releases the source handle
zero times, not once — `sys.exit(1)` on line 92 skips the `release()` on
line 98. -/
theorem c4_counterexample_no_release_on_failure :
    (query_frames (fun _ => true) (fun _ _ => (none : Option Nat)) 2 1
      (Deque.emptyD Nat 4) 3).exitKind = PExit.sysExit 1 ∧
    ¬ (query_frames (fun _ => true) (fun _ _ => (none : Option Nat)) 2 1
      (Deque.emptyD Nat 4) 3).releases = 1 := by
  decide

/-- C4 amended: the source handle is released exactly once when the
producer loop leaves its running state because the stop flag was observed
false, and zero times otherwise — in particular on the unrecoverable
fetch failure (and when the modelled run is cut off by fuel). -/
theorem c4_amended_release_once_only_on_stop (kq : Nat → Bool)
    (src : Nat → Nat → Option Nat) (max_fail : Int) (mst : ℚ) (d : Deque Nat)
    (fuel : Nat) :
    (query_frames kq src max_fail mst d fuel).releases =
      if (query_frames kq src max_fail mst d fuel).exitKind = PExit.normal
      then 1 else 0 :=
  queryFramesAux_releases kq src max_fail mst fuel 0 d

/-- C7: With quota `m ≥ 1` (not the `-1` sentinel) and an always-ready
supply, the recording consumer performs exactly `m` writes, consecutive
writes separated by a sleep of the recording interval, and after the
`m`-th write it leaves the loop and sets the shared stop flag. -/
theorem c7_recording_consumer_meets_quota (m : Nat) (hm : 1 ≤ m)
    (interval : ℚ) (s : VideoStreamCapture Nat) (p : String)
    (hp : s.target_folder_path = some p) (f : Nat) (fuel : Nat)
    (hfuel : m ≤ fuel) :
    (record_live_stream_to_folder s interval (m : Int) (fun _ => some f)
      (fun _ => false) fuel).1.exitKind = RecExit.normal ∧
    (record_live_stream_to_folder s interval (m : Int) (fun _ => some f)
      (fun _ => false) fuel).1.num_images_saved = m ∧
    (record_live_stream_to_folder s interval (m : Int) (fun _ => some f)
      (fun _ => false) fuel).1.events.countP RecEvent.isWrite = m ∧
    (record_live_stream_to_folder s interval (m : Int) (fun _ => some f)
      (fun _ => false) fuel).1.events.Chain'
      (fun a b => ¬ (a = RecEvent.write ∧ b = RecEvent.write)) ∧
    (∀ e ∈ (record_live_stream_to_folder s interval (m : Int) (fun _ => some f)
      (fun _ => false) fuel).1.events,
      e = RecEvent.write ∨ e = RecEvent.sleep interval) ∧
    (record_live_stream_to_folder s interval (m : Int) (fun _ => some f)
      (fun _ => false) fuel).1.stop_signaled = true ∧
    (record_live_stream_to_folder s interval (m : Int) (fun _ => some f)
      (fun _ => false) fuel).2.keep_querying = false := by
  have hloop := recordLoop_always_ready f interval s.micro_sleep_time m fuel 0 0
    (by omega) (by omega)
  rw [Nat.sub_zero] at hloop
  have hrec : record_live_stream_to_folder s interval (m : Int) (fun _ => some f)
      (fun _ => false) fuel =
      (⟨RecExit.normal, m, altTrace RecEvent.write (RecEvent.sleep interval) m,
          true⟩,
        signal_stop_querying s) := by
    unfold record_live_stream_to_folder
    rw [hp, hloop]
  rw [hrec]
  refine ⟨rfl, rfl, ?_, ?_, ?_, rfl, rfl⟩
  · exact altTrace_countP RecEvent.isWrite RecEvent.write
      (RecEvent.sleep interval) rfl rfl m
  · exact (altTrace_chain_pair _ RecEvent.write (RecEvent.sleep interval)
      (by simp) (by simp) m).1
  · exact altTrace_mem _ _ m

/-- Witness for C7: quota 5, interval 60, always-ready supply, on
`sampleS`. -/
theorem c7_witness :
    1 ≤ 5 ∧ sampleS.target_folder_path = some "p" ∧ 5 ≤ 5 ∧
    ((record_live_stream_to_folder sampleS 60 ((5 : Nat) : Int)
        (fun _ => some 7) (fun _ => false) 5).1.exitKind = RecExit.normal ∧
      (record_live_stream_to_folder sampleS 60 ((5 : Nat) : Int)
        (fun _ => some 7) (fun _ => false) 5).1.num_images_saved = 5 ∧
      (record_live_stream_to_folder sampleS 60 ((5 : Nat) : Int)
        (fun _ => some 7) (fun _ => false) 5).1.events.countP
        RecEvent.isWrite = 5 ∧
      (record_live_stream_to_folder sampleS 60 ((5 : Nat) : Int)
        (fun _ => some 7) (fun _ => false) 5).1.events.Chain'
        (fun a b => ¬ (a = RecEvent.write ∧ b = RecEvent.write)) ∧
      (∀ e ∈ (record_live_stream_to_folder sampleS 60 ((5 : Nat) : Int)
        (fun _ => some 7) (fun _ => false) 5).1.events,
        e = RecEvent.write ∨ e = RecEvent.sleep 60) ∧
      (record_live_stream_to_folder sampleS 60 ((5 : Nat) : Int)
        (fun _ => some 7) (fun _ => false) 5).1.stop_signaled = true ∧
      (record_live_stream_to_folder sampleS 60 ((5 : Nat) : Int)
        (fun _ => some 7) (fun _ => false) 5).2.keep_querying = false) :=
  ⟨by decide, rfl, by decide,
    c7_recording_consumer_meets_quota 5 (by decide) 60 sampleS "p" rfl 7 5
      (by decide)⟩

/-- C8: Once `keep_querying` is `false`, no sequence of pipeline
operations ever sets it back to `true`: a stopped instance stays
stopped. -/
theorem c8_stopped_instance_stays_stopped (s : VideoStreamCapture Nat)
    (ops : List (Op Nat)) (h : s.keep_querying = false) :
    (applyOps s ops).keep_querying = false := by
  induction ops generalizing s with
  | nil => exact h
  | cons op ops ih =>
    apply ih
    rcases applyOp_keep_querying s op with h2 | h2
    · exact h2
    · rw [h2]; exact h

/-- Witness for C8: a stopped `sampleS` run through pops, a push, a full
recording call and a further stop request. -/
theorem c8_witness :
    (signal_stop_querying sampleS).keep_querying = false ∧
    (applyOps (signal_stop_querying sampleS)
      [Op.getFrame true, Op.producerPush 5,
        Op.record 60 2 (fun _ => some 9) (fun _ => false) 4,
        Op.signalStop]).keep_querying = false :=
  ⟨rfl, c8_stopped_instance_stays_stopped (signal_stop_querying sampleS) _ rfl⟩

/-- C9: With a non-empty `target_folder_path` argument the constructor
never assigns the `target_folder_path` attribute — it assigns it exactly
when the argument is missing or empty — so a later
`record_live_stream_to_folder` call on such an instance fails with
`AttributeError` before writing any image and without signalling stop. -/
theorem c9_nonempty_folder_arg_breaks_recording (url generated p : String)
    (hp : ¬ p = "") (buffer_size : Nat) (verbose : Bool) (mst : ℚ)
    (max_fail : Int) (interval : ℚ) (m : Int) (supply : Nat → Option Nat)
    (quit : Nat → Bool) (fuel : Nat) :
    (VideoStreamCapture.init Nat url (some p) generated buffer_size verbose mst
      max_fail).target_folder_path = none ∧
    (VideoStreamCapture.init Nat url (some "") generated buffer_size verbose mst
      max_fail).target_folder_path = some generated ∧
    (VideoStreamCapture.init Nat url none generated buffer_size verbose mst
      max_fail).target_folder_path = some generated ∧
    record_live_stream_to_folder
      (VideoStreamCapture.init Nat url (some p) generated buffer_size verbose mst
        max_fail) interval m supply quit fuel =
      (⟨RecExit.attrError, 0, [], false⟩,
        VideoStreamCapture.init Nat url (some p) generated buffer_size verbose mst
          max_fail) := by
  have h : (VideoStreamCapture.init Nat url (some p) generated buffer_size verbose
      mst max_fail).target_folder_path = none := by
    simp [VideoStreamCapture.init, hp]
  refine ⟨h, rfl, rfl, ?_⟩
  unfold record_live_stream_to_folder
  rw [h]

/-- Witness for C9: the folder argument `"shots"`. -/
theorem c9_witness :
    ¬ ("shots" : String) = "" ∧
    ((VideoStreamCapture.init Nat "u" (some "shots") "g" 3 true 1
        20).target_folder_path = none ∧
      (VideoStreamCapture.init Nat "u" (some "") "g" 3 true 1
        20).target_folder_path = some "g" ∧
      (VideoStreamCapture.init Nat "u" none "g" 3 true 1
        20).target_folder_path = some "g" ∧
      record_live_stream_to_folder
        (VideoStreamCapture.init Nat "u" (some "shots") "g" 3 true 1 20) 60 5
        (fun _ => some 7) (fun _ => false) 3 =
        (⟨RecExit.attrError, 0, [], false⟩,
          VideoStreamCapture.init Nat "u" (some "shots") "g" 3 true 1 20)) :=
  ⟨by decide,
    c9_nonempty_folder_arg_breaks_recording "u" "g" "shots" (by decide) 3 true 1
      20 60 5 (fun _ => some 7) (fun _ => false) 3⟩

/-- C10: For a quota `m ≤ 0` other than the `-1` sentinel the recording
loop body never runs — zero writes, `num_images_saved` stays 0 — and the
stop flag is set immediately (on an instance whose `target_folder_path`
attribute is assigned). -/
theorem c10_nonpositive_quota_writes_nothing (m : Int) (hm : m ≤ 0)
    (hm1 : ¬ m = -1) (s : VideoStreamCapture Nat) (p : String)
    (hp : s.target_folder_path = some p) (interval : ℚ)
    (supply : Nat → Option Nat) (quit : Nat → Bool) (fuel : Nat) :
    record_live_stream_to_folder s interval m supply quit fuel =
      (⟨RecExit.normal, 0, [], true⟩, signal_stop_querying s) := by
  have hc : ¬ ((0 : Int) < m ∨ m = -1) := by omega
  unfold record_live_stream_to_folder
  rw [hp]
  cases fuel with
  | zero => simp [recordLoop, hc]
  | succ fuel => simp [recordLoop, hc]

/-- Witness for C10: quota 0 on `sampleS` with an always-ready supply. -/
theorem c10_witness :
    (0 : Int) ≤ 0 ∧ ¬ (0 : Int) = -1 ∧ sampleS.target_folder_path = some "p" ∧
    record_live_stream_to_folder sampleS 60 0 (fun _ => some 7)
      (fun _ => false) 6 =
      (⟨RecExit.normal, 0, [], true⟩, signal_stop_querying sampleS) :=
  ⟨by decide, by decide, rfl,
    c10_nonpositive_quota_writes_nothing 0 (by decide) (by decide) sampleS "p"
      rfl 60 (fun _ => some 7) (fun _ => false) 6⟩

end LiveStream
